import Mathlib

/-!
Verification development for the dental-clinic MCP calendar service
(`dental-mcp-http-server.py`).

Modelling conventions:
* All instants are minutes on the clinic-local (Europe/Amsterdam) timeline,
  with minute 0 the midnight of the day under consideration; business hours
  09:00-17:00 are minutes 540-1020.  Timed Google-calendar fields
  (`start.dateTime` / `end.dateTime`) are `Option Nat` minutes; `none` models
  an event without a timed field (an all-day event, where only `start.date`
  is present and indexing `['dateTime']` raises `KeyError`).
* Python exceptions are modelled with `Except String`; a `try/except` block
  is a `match` on the `Except` value.  Network fetches from the Google
  Calendar API are parameters of type `Except String (List Event)` (the
  `.error` case models a raised exception, including missing credentials).
* Strings are compared as the source does: lower-cased substring tests.
-/

namespace Dental

/-- Python truthiness of an optional string argument (`args.get(...)`):
`None` and the empty string are falsy. -/
def py_truthy : Option String → Bool
  | none => false
  | some s => !s.isEmpty

/-- Occurrence of `needle` as a contiguous sublist of `hay`; this is the
Python substring test `needle in hay` on the character level. -/
def occurs (needle : List Char) : List Char → Bool
  | [] => needle.isEmpty
  | c :: rest => needle.isPrefixOf (c :: rest) || occurs needle rest

/-- Python `s.lower()`, as the lower-cased character list. -/
def lower (s : String) : List Char := s.toList.map Char.toLower

/-- Python `a.lower() in b.lower()`. -/
def py_in_lower (a b : String) : Bool := occurs (lower a) (lower b)

/-- Two-digit zero padding, as in `strftime`. -/
def two_digits (n : Nat) : String := (if n < 10 then "0" else "") ++ toString n

/-- `strftime("%H:%M")` of a clinic-local instant given in minutes. -/
def hh_mm (m : Nat) : String := two_digits (m / 60) ++ ":" ++ two_digits (m % 60)

structure Attendee where
  email : String
  displayName : String
deriving DecidableEq

/-- A Google-calendar event record, restricted to the fields the service
reads or writes.  `start`/`endTime` are the timed `dateTime` fields in
clinic-local minutes (`none` = field missing, e.g. an all-day event). -/
structure Event where
  id : String
  summary : String
  description : String
  start : Option Nat
  endTime : Option Nat
  attendees : List Attendee
  status : String
deriving DecidableEq

/-! ### Appointment Matcher (`find_appointment_by_patient_info`, lines 103-176) -/

/-- The time filter applied when `appointment_time` is supplied: the event is
kept only when its timed start, rendered `"%H:%M"` in clinic time, equals the
requested time; an event whose `start` lacks `dateTime` is silently dropped
(the source guards with `if event_start:` on the empty-string default). -/
def time_filter_ok (appointment_time : Option String) (e : Event) : Bool :=
  match appointment_time with
  | none => true
  | some t =>
    match e.start with
    | none => false
    | some m => hh_mm (m % 1440) == t

/-- `patient_name.lower() in summary.lower()` (line 134). -/
def title_matches (patient_name : String) (e : Event) : Bool :=
  py_in_lower patient_name e.summary

/-- `patient_name.lower() in attendee_email or patient_name.lower() in
attendee_name` (lines 151-152). -/
def attendee_matches (patient_name : String) (a : Attendee) : Bool :=
  py_in_lower patient_name a.email || py_in_lower patient_name a.displayName

/-- The `matches.append(event)` entries one event contributes in the scan of
lines 129-162: one copy for a title match and one copy per matching attendee,
each gated by the time filter.  (The source appends the event once in the
title branch and once more inside the attendee loop for every matching
attendee, so a single event can contribute several entries.) -/
def event_match_entries (patient_name : String) (appointment_time : Option String)
    (e : Event) : List Event :=
  (if title_matches patient_name e then
    (if time_filter_ok appointment_time e then [e] else []) else [])
  ++ e.attendees.flatMap (fun a =>
      if attendee_matches patient_name a then
        (if time_filter_ok appointment_time e then [e] else []) else [])

/-- Result of the matcher: the chosen event, and the `_multiple_matches`
count when more than one entry was accumulated. -/
structure FindResult where
  event : Event
  multiple_matches : Option Nat
deriving DecidableEq

/-- `find_appointment_by_patient_info` (lines 103-176), as a function of the
outcome of its event fetch; `.error` models an exception raised inside the
`try`, which lines 174-176 turn into `None`.  The `.ok` case embeds the
scan of lines 129-172 as written: zero entries give `none`, one entry gives
the event, several give the first entry tagged with the entry count.  In
the program the fetch is always `CALENDAR_ID_fetch` below, which raises, so
the `.ok` case is dead code there: the matcher as executed is
`find_appointment_by_patient_info_run`. -/
def find_appointment_by_patient_info (patient_name : String)
    (appointment_time : Option String) (fetch : Except String (List Event)) :
    Option FindResult :=
  match fetch with
  | .error _ => none
  | .ok events =>
    let ms := events.flatMap (event_match_entries patient_name appointment_time)
    match ms with
    | [] => none
    | [e] => some ⟨e, none⟩
    | e :: _ :: _ => some ⟨e, some ms.length⟩

/-! ### Slot Finder (`check_available_slots`, lines 543-607) -/

/-- Business hours start, `"09:00"`, in minutes. -/
def BUSINESS_START : Nat := 540

/-- Business hours end, `"17:00"`, in minutes. -/
def BUSINESS_END : Nat := 1020

/-- The candidate slot starts generated by the `while current_time < end_time`
loop (lines 577-598), stepping 30 minutes. -/
def gen_slots_from (current : Nat) : List Nat :=
  if current < BUSINESS_END then current :: gen_slots_from (current + 30) else []
termination_by BUSINESS_END - current
decreasing_by simp_all [BUSINESS_END]; omega

/-- The inner conflict scan of lines 584-590: events are examined in list
order; each event's `start['dateTime']` and `end['dateTime']` are read
(raising `KeyError` when missing) before the half-open overlap test
`current_time < event_end and slot_end > event_start`; the loop `break`s at
the first conflict. -/
def find_conflict (slot_start : Nat) : List Event → Except String Bool
  | [] => .ok false
  | e :: rest =>
    match e.start, e.endTime with
    | some a, some b =>
      if slot_start < b ∧ slot_start + 30 > a then .ok true
      else find_conflict slot_start rest
    | _, _ => .error "KeyError: dateTime"

/-- One available slot as returned to the caller: the `"%H:%M"` rendering and
the instant (the source also returns the full ISO timestamp; we keep the
minute value). -/
structure Slot where
  time : String
  datetime : Nat
deriving DecidableEq

def mk_slot (m : Nat) : Slot := ⟨hh_mm (m % 1440), m⟩

/-- The outer slot loop: each candidate is kept when the conflict scan says
false; an exception from the scan aborts the whole computation. -/
def scan_slots (events : List Event) : List Nat → Except String (List Slot)
  | [] => .ok []
  | s :: rest =>
    match find_conflict s events with
    | .error e => .error e
    | .ok conflict =>
      match scan_slots events rest with
      | .error e => .error e
      | .ok tail => .ok (if conflict then tail else mk_slot s :: tail)

structure CheckResult where
  date : String
  available_slots : List Slot
  business_hours : String
deriving DecidableEq

/-- `check_available_slots` (lines 543-607).  The fetch of the day's events is
a parameter; any exception (fetch failure, missing credentials, `KeyError`
from an event without timed fields) is caught by the `except` clause and
re-raised as `HTTPException(500, "Failed to check available slots: ...")`,
modelled as `.error` with that detail string. -/
def check_available_slots (date : String) (fetch : Except String (List Event)) :
    Except String CheckResult :=
  match (match fetch with
         | .error e => .error e
         | .ok events =>
           match scan_slots events (gen_slots_from BUSINESS_START) with
           | .error e => .error e
           | .ok slots =>
             .ok { date := date, available_slots := slots,
                   business_hours := "09:00 - 17:00" } : Except String CheckResult) with
  | .ok r => .ok r
  | .error e => .error ("Failed to check available slots: " ++ e)

/-! ### Mutation tools: cancel and reschedule by patient lookup -/

/-- A write issued to the external calendar.  `update` is a full replace
(`events().update`), `patch` a partial update of start/end
(`events().patch`), `delete` the API's delete operation — which no code
path of this service ever issues. -/
inductive CalendarWrite where
  | update (eventId : String) (body : Event)
  | patch (eventId : String) (newStart : Nat) (newEnd : Nat)
  | delete (eventId : String)
deriving DecidableEq

/-- The response dictionary of `cancel_appointment_by_patient`, restricted to
the keys the claims inspect. -/
structure CancelResult where
  success : Bool
  error : Option String
  message : String
  multiple_matches : Bool
  reason : Option String
deriving DecidableEq

/-- A cancel run: the returned dictionary plus the calendar write it issued
(`none` when it returned without writing). -/
structure CancelOutcome where
  result : CancelResult
  write : Option CalendarWrite
deriving DecidableEq

structure CancelArgs where
  patient_name : Option String
  appointment_date : Option String
  appointment_time : Option String
  reason : Option String
deriving DecidableEq

/-- The `try` body of `cancel_appointment_by_patient` (lines 787-856);
`.error` is an exception escaping to the `except` clause.  The fetch used by
the appointment lookup is a parameter. -/
def cancel_body (args : CancelArgs) (fetch : Except String (List Event)) :
    Except String CancelOutcome :=
  let reason := args.reason.getD "Geannuleerd door patiënt"
  if !(py_truthy args.patient_name && py_truthy args.appointment_date) then
    .ok ⟨⟨false, some "Patient name and appointment date are required",
          "Ik heb de patiëntnaam en afspraakdatum nodig om de afspraak te annuleren.",
          false, none⟩, none⟩
  else
    let patient_name := args.patient_name.getD ""
    let appointment_date := args.appointment_date.getD ""
    match find_appointment_by_patient_info patient_name args.appointment_time fetch with
    | none =>
      .ok ⟨⟨false, some "Appointment not found",
            "Ik kon geen afspraak vinden voor " ++ patient_name ++ " op "
              ++ appointment_date ++ ". Kunt u de datum en tijd nog eens controleren?",
            false, none⟩, none⟩
    | some fr =>
      if fr.multiple_matches.getD 0 > 1 then
        match fr.event.start with
        | none => .error "KeyError: dateTime"
        | some _ =>
          .ok ⟨⟨false, none,
                "Ik vond meerdere afspraken voor " ++ patient_name ++ ".",
                true, none⟩, none⟩
      else
        let e := fr.event
        let body := { e with summary := "[GEANNULEERD] " ++ e.summary,
                             description := e.description
                               ++ "\n\nReden annulering: " ++ reason }
        .ok ⟨⟨true, none,
              "Afspraak voor " ++ patient_name ++ " op " ++ appointment_date
                ++ " is succesvol geannuleerd",
              false, some reason⟩, some (.update e.id body)⟩

/-- `cancel_appointment_by_patient` (lines 787-864): the `except` clause
turns any exception into a generic failure response, with no write. -/
def cancel_appointment_by_patient (args : CancelArgs)
    (fetch : Except String (List Event)) : CancelOutcome :=
  match cancel_body args fetch with
  | .ok o => o
  | .error e =>
    ⟨⟨false, some e, "Er ging iets mis bij het annuleren van de afspraak",
      false, none⟩, none⟩

/-- A Python value reaching `json.loads`: the source passes it the value of
the `"available_slots"` key of the dictionary returned by
`check_available_slots`, which is a Python list (of slot dictionaries), not
a JSON string. -/
inductive PyVal where
  | str (s : String)
  | list (slots : List Slot)
deriving DecidableEq

/-- `json.loads` semantics: parsing is only defined on strings; on any other
value Python raises `TypeError: the JSON object must be str, bytes or
bytearray, not list`.  The only string that could reach this call in the
source is the `"[]"` default (never taken, since the key always exists). -/
def json_loads : PyVal → Except String (List Slot)
  | .str s => if s = "[]" then .ok [] else .error "json.loads: unmodelled string"
  | .list _ => .error "the JSON object must be str, bytes or bytearray, not list"

/-- `hour, minute = map(int, new_time.split(':'))` (line 936). -/
def parse_hh_mm (t : String) : Except String Nat :=
  match t.splitOn ":" with
  | [h, m] =>
    match h.toNat?, m.toNat? with
    | some hh, some mm => .ok (hh * 60 + mm)
    | _, _ => .error "ValueError: invalid literal for int"
  | _ => .error "ValueError: cannot unpack"

structure RescheduleArgs where
  patient_name : Option String
  current_date : Option String
  current_time : Option String
  new_date : Option String
  new_time : Option String
deriving DecidableEq

/-- The response dictionary of `reschedule_appointment_by_patient`,
restricted to the keys the claims inspect. -/
structure RescheduleResult where
  success : Bool
  error : Option String
  message : String
  multiple_matches : Bool
  suggested_times : Option (List String)
deriving DecidableEq

structure RescheduleOutcome where
  result : RescheduleResult
  write : Option CalendarWrite
deriving DecidableEq

/-- The `try` body of `reschedule_appointment_by_patient` (lines 866-966).
`fetchCur` backs the lookup of the current appointment, `fetchNew` the
availability check for the new date.  Line 915 applies `json.loads` to the
`available_slots` value of the check result — a Python list — so the branch
testing the new time and the write are only reachable if that call returns. -/
def reschedule_body (args : RescheduleArgs)
    (fetchCur fetchNew : Except String (List Event)) :
    Except String RescheduleOutcome :=
  if !(py_truthy args.patient_name && py_truthy args.current_date
        && py_truthy args.new_date && py_truthy args.new_time) then
    .ok ⟨⟨false, some "Missing required parameters",
          "Ik heb de patiëntnaam, huidige datum, nieuwe datum en nieuwe tijd nodig om de afspraak te verzetten.",
          false, none⟩, none⟩
  else
    let patient_name := args.patient_name.getD ""
    let current_date := args.current_date.getD ""
    let new_date := args.new_date.getD ""
    let new_time := args.new_time.getD ""
    match find_appointment_by_patient_info patient_name args.current_time fetchCur with
    | none =>
      .ok ⟨⟨false, some "Appointment not found",
            "Ik kon geen afspraak vinden voor " ++ patient_name ++ " op "
              ++ current_date
              ++ ". Kunt u de huidige datum en tijd nog eens controleren?",
            false, none⟩, none⟩
    | some fr =>
      if fr.multiple_matches.getD 0 > 1 then
        match fr.event.start with
        | none => .error "KeyError: dateTime"
        | some _ =>
          .ok ⟨⟨false, none,
                "Ik vond meerdere afspraken voor " ++ patient_name ++ ".",
                true, none⟩, none⟩
      else
        match check_available_slots new_date fetchNew with
        | .error e => .error e
        | .ok cres =>
          match json_loads (PyVal.list cres.available_slots) with
          | .error e => .error e
          | .ok available_data =>
            if !(available_data.any (fun s => s.time == new_time)) then
              let available_times := (available_data.take 5).map Slot.time
              .ok ⟨⟨false, some "Time slot not available",
                    "De tijd " ++ new_time ++ " op " ++ new_date
                      ++ " is niet beschikbaar. Beschikbare tijden: "
                      ++ String.intercalate ", " available_times,
                    false, some available_times⟩, none⟩
            else
              match (if new_time.contains ':' then parse_hh_mm new_time
                     else .ok 0 : Except String Nat) with
              | .error e => .error e
              | .ok newStart =>
                .ok ⟨⟨true, none,
                      "Afspraak voor " ++ patient_name ++ " succesvol verzet naar "
                        ++ new_date ++ " om " ++ new_time,
                      false, none⟩,
                     some (.patch fr.event.id newStart (newStart + 30))⟩

/-- `reschedule_appointment_by_patient` (lines 866-974): the `except` clause
turns any exception into a generic failure response, with no write. -/
def reschedule_appointment_by_patient (args : RescheduleArgs)
    (fetchCur fetchNew : Except String (List Event)) : RescheduleOutcome :=
  match reschedule_body args fetchCur fetchNew with
  | .ok o => o
  | .error e =>
    ⟨⟨false, some e, "Er ging iets mis bij het verzetten van de afspraak",
      false, none⟩, none⟩

/-! ### The broken lookup fetch: the undefined `CALENDAR_ID` global -/

/-- The event fetch of lines 118-124:
`service.events().list(calendarId=CALENDAR_ID, ...)`.  The global name
`CALENDAR_ID` is assigned nowhere in the module — every other function
reads a local `calendar_id` from the environment — so evaluating the
argument raises `NameError` on every call, whatever the calendar holds. -/
def CALENDAR_ID_fetch : Except String (List Event) :=
  .error "NameError: name CALENDAR_ID is not defined"

/-- The matcher as the program actually runs it: the fetch raises
`NameError` before any event is examined, the `except` clause of lines
174-176 returns `None`, and the scan of lines 129-172 is unreachable. -/
def find_appointment_by_patient_info_run (patient_name : String)
    (appointment_time : Option String) : Option FindResult :=
  find_appointment_by_patient_info patient_name appointment_time CALENDAR_ID_fetch

/-- `cancel_appointment_by_patient` as the program actually runs it: its
lookup performs the fetch with the undefined `CALENDAR_ID`. -/
def cancel_appointment_by_patient_run (args : CancelArgs) : CancelOutcome :=
  cancel_appointment_by_patient args CALENDAR_ID_fetch

/-- `reschedule_appointment_by_patient` as the program actually runs it:
the lookup of the current appointment performs the fetch with the undefined
`CALENDAR_ID`; the availability check for the new date reads its own local
`calendar_id` (line 931) and keeps its fetch parameter. -/
def reschedule_appointment_by_patient_run (args : RescheduleArgs)
    (fetchNew : Except String (List Event)) : RescheduleOutcome :=
  reschedule_appointment_by_patient args CALENDAR_ID_fetch fetchNew

/-! ### The MCP request handler (`handle_mcp_request`, lines 377-541) -/

def TOOL_NAMES : List String :=
  ["check_available_slots", "book_appointment", "list_appointments",
   "get_appointment_details", "cancel_appointment", "reschedule_appointment"]

structure McpRequest where
  method : String
  id : Option Int
  toolName : String
deriving DecidableEq

inductive McpBody where
  | initResult
  | toolsList
  | callResult (text : String)
  | callError (code : Int) (message : String)
deriving DecidableEq

structure McpResponse where
  id : Option Int
  body : McpBody
deriving DecidableEq

/-- The tool dispatch inside the `try` of the `tools/call` branch
(lines 507-521).  `runTool` abstracts the execution of the selected tool
function: `.error` models any exception it raises (missing credentials,
Google API failure, validation `ValueError`, ...); an unknown tool name
raises an `HTTPException` inside the same `try`. -/
def dispatch_tool (toolName : String)
    (runTool : String → Except String String) : Except String String :=
  if toolName ∈ TOOL_NAMES then runTool toolName
  else .error ("Unknown tool: " ++ toolName)

/-- `handle_mcp_request` (lines 377-541).  For `tools/call` the dispatch is
wrapped in `try/except`, every exception becoming a JSON-RPC error object
with code -32603 and the exception text; an unknown *method* (line 541)
raises outside any local handler, modelled as `.error`. -/
def handle_mcp_request (req : McpRequest)
    (runTool : String → Except String String) : Except String McpResponse :=
  if req.method = "initialize" then .ok ⟨req.id, .initResult⟩
  else if req.method = "tools/list" then .ok ⟨req.id, .toolsList⟩
  else if req.method = "tools/call" then
    .ok ⟨req.id,
      match dispatch_tool req.toolName runTool with
      | .ok r => .callResult r
      | .error e => .callError (-32603) e⟩
  else .error ("Unknown method: " ++ req.method)

/-! ### Basic lemmas about the Slot Finder -/

lemma gen_slots_step (c : Nat) (h : c < BUSINESS_END) :
    gen_slots_from c = c :: gen_slots_from (c + 30) := by
  rw [gen_slots_from]
  simp [h]

lemma gen_slots_stop (c : Nat) (h : ¬ c < BUSINESS_END) :
    gen_slots_from c = [] := by
  rw [gen_slots_from]
  simp [h]

lemma gen_slots_concrete : gen_slots_from BUSINESS_START =
    [540, 570, 600, 630, 660, 690, 720, 750, 780, 810, 840, 870,
     900, 930, 960, 990] := by
  simp only [BUSINESS_START]
  simp only [gen_slots_step, gen_slots_stop, BUSINESS_END, Nat.reduceAdd, Nat.reduceLT,
    not_false_eq_true, not_true_eq_false]

lemma check_ok (d : String) (evs : List Event) :
    check_available_slots d (.ok evs) =
      match scan_slots evs (gen_slots_from BUSINESS_START) with
      | .ok slots => .ok ⟨d, slots, "09:00 - 17:00"⟩
      | .error e => .error ("Failed to check available slots: " ++ e) := by
  cases hscan : scan_slots evs (gen_slots_from BUSINESS_START) <;>
    simp only [check_available_slots, hscan]

lemma scan_slots_no_events : ∀ cands : List Nat,
    scan_slots [] cands = .ok (cands.map mk_slot)
  | [] => rfl
  | s :: rest => by
    rw [scan_slots, scan_slots_no_events rest]
    rfl

lemma find_conflict_timed (s a b : Nat) (e : Event)
    (hs : e.start = some a) (hb : e.endTime = some b) :
    find_conflict s [e] = .ok (decide (s < b ∧ s + 30 > a)) := by
  rcases Decidable.em (s < b ∧ s + 30 > a) with h | h <;>
    simp [find_conflict, hs, hb, h]

lemma scan_slots_timed (e : Event) (a b : Nat)
    (hs : e.start = some a) (hb : e.endTime = some b) :
    ∀ cands : List Nat, scan_slots [e] cands =
      .ok ((cands.filter (fun s => !decide (s < b ∧ s + 30 > a))).map mk_slot)
  | [] => rfl
  | s :: rest => by
    rw [scan_slots, find_conflict_timed s a b e hs hb, scan_slots_timed e a b hs hb rest]
    rcases Decidable.em (s < b ∧ s + 30 > a) with h | h
    · simp [h, List.filter_cons]
    · simp [h, List.filter_cons]
      rw [if_pos (by omega)]
      simp

lemma map_datetime_mk (l : List Nat) : (l.map mk_slot).map Slot.datetime = l := by
  induction l with
  | nil => rfl
  | cons x xs ih => simp [mk_slot, ih]

/-- C5: for every candidate slot `[s, s+30)` and every existing timed event
`[a, b)`, the Slot Finder excludes the slot from the available set iff
`s < b` and `s + 30 > a`; an event that merely touches the slot
(`b = s` or `a = s + 30`) does not exclude it. -/
theorem slot_overlap_exclusion_iff (d : String) (a b s : Nat) (e : Event)
    (hs : e.start = some a) (hb : e.endTime = some b)
    (hcand : s ∈ gen_slots_from BUSINESS_START) :
    ∃ r, check_available_slots d (.ok [e]) = .ok r ∧
      ((s ∉ r.available_slots.map Slot.datetime) ↔ (s < b ∧ s + 30 > a)) ∧
      ((b = s ∨ a = s + 30) → s ∈ r.available_slots.map Slot.datetime) := by
  rw [check_ok, scan_slots_timed e a b hs hb]
  refine ⟨_, rfl, ?_, ?_⟩
  · rw [map_datetime_mk, List.mem_filter]
    rcases Decidable.em (s < b ∧ s + 30 > a) with h | h <;> simp [h, hcand]
  · intro htouch
    rw [map_datetime_mk, List.mem_filter]
    refine ⟨hcand, ?_⟩
    rcases htouch with h | h <;> simp <;> omega

/-- Witness for C5: the candidate slot 600 (10:00) against an event
630-660 (10:30-11:00) that merely touches slots; concretely evaluated. -/
theorem slot_overlap_exclusion_iff_witness :
    (600 ∈ gen_slots_from BUSINESS_START) ∧
    (∃ r, check_available_slots "2024-06-01"
        (.ok [⟨"e1", "Afspraak - Jansen", "", some 630, some 660, [], "confirmed"⟩]) = .ok r ∧
      ((600 ∉ r.available_slots.map Slot.datetime) ↔ (600 < 660 ∧ 600 + 30 > 630)) ∧
      ((660 = 600 ∨ 630 = 600 + 30) → 600 ∈ r.available_slots.map Slot.datetime)) := by
  have hcand : 600 ∈ gen_slots_from BUSINESS_START := by
    rw [gen_slots_concrete]; decide
  exact ⟨hcand, slot_overlap_exclusion_iff "2024-06-01" 630 660 600
    ⟨"e1", "Afspraak - Jansen", "", some 630, some 660, [], "confirmed"⟩ rfl rfl hcand⟩

/-- C6: with no existing events, `check_available_slots` returns exactly 16
slots 09:00, 09:30, ..., 16:30 in strictly increasing chronological order,
and 17:00 is not among them. -/
theorem empty_day_sixteen_slots (d : String) :
    ∃ r, check_available_slots d (.ok []) = .ok r ∧
      r.available_slots.map Slot.time =
        ["09:00", "09:30", "10:00", "10:30", "11:00", "11:30", "12:00", "12:30",
         "13:00", "13:30", "14:00", "14:30", "15:00", "15:30", "16:00", "16:30"] ∧
      r.available_slots.length = 16 ∧
      List.Pairwise (fun x y : Nat => x < y) (r.available_slots.map Slot.datetime) ∧
      "17:00" ∉ r.available_slots.map Slot.time := by
  rw [check_ok, scan_slots_no_events, gen_slots_concrete]
  refine ⟨⟨d, List.map mk_slot [540, 570, 600, 630, 660, 690, 720, 750, 780, 810, 840, 870,
            900, 930, 960, 990], "09:00 - 17:00"⟩, rfl, ?_, ?_, ?_, ?_⟩
  · show List.map Slot.time (List.map mk_slot [540, 570, 600, 630, 660, 690, 720, 750, 780,
        810, 840, 870, 900, 930, 960, 990]) =
      ["09:00", "09:30", "10:00", "10:30", "11:00", "11:30", "12:00", "12:30",
       "13:00", "13:30", "14:00", "14:30", "15:00", "15:30", "16:00", "16:30"]
    decide
  · show (List.map mk_slot [540, 570, 600, 630, 660, 690, 720, 750, 780, 810, 840, 870,
        900, 930, 960, 990]).length = 16
    decide
  · show List.Pairwise (fun x y : Nat => x < y)
      (List.map Slot.datetime (List.map mk_slot [540, 570, 600, 630, 660, 690, 720, 750,
        780, 810, 840, 870, 900, 930, 960, 990]))
    rw [map_datetime_mk]
    decide
  · show "17:00" ∉ List.map Slot.time (List.map mk_slot [540, 570, 600, 630, 660, 690, 720,
        750, 780, 810, 840, 870, 900, 930, 960, 990])
    decide

/-- C10 counterexample: the event list holds an all-day event (no timed
`start`), yet `check_available_slots` does not raise: an earlier event in the
list conflicts with every candidate slot, so the loop `break`s before the
all-day event is ever parsed, and a normal (empty) slot list is returned. -/
theorem allday_event_shadowed_no_error :
    (⟨"allday", "Vakantie", "", none, none, [], "confirmed"⟩ : Event).start = none ∧
    check_available_slots "2024-06-03"
      (.ok [⟨"blocker", "Hele dag bezet", "", some 540, some 1020, [], "confirmed"⟩,
            ⟨"allday", "Vakantie", "", none, none, [], "confirmed"⟩]) =
      .ok ⟨"2024-06-03", [], "09:00 - 17:00"⟩ := by
  refine ⟨rfl, ?_⟩
  rw [check_ok, gen_slots_concrete]
  rfl

/-- C10 (amended): when the scan actually reaches an event whose timed
`start`/`end` is missing — in particular whenever such an event is first in
the fetched list — `check_available_slots` raises and returns no slot list. -/
theorem allday_event_reached_raises (d : String) (e : Event) (rest : List Event)
    (h : e.start = none ∨ e.endTime = none) :
    check_available_slots d (.ok (e :: rest)) =
      .error "Failed to check available slots: KeyError: dateTime" := by
  rw [check_ok, gen_slots_step BUSINESS_START (by norm_num [BUSINESS_START, BUSINESS_END])]
  have hconf : find_conflict BUSINESS_START (e :: rest) = .error "KeyError: dateTime" := by
    rcases h with h | h
    · simp [find_conflict, h]
    · cases hstart : e.start <;> simp [find_conflict, h, hstart]
  rw [scan_slots, hconf]
  rfl

/-- Witness for C10 (amended): a single all-day event makes the availability
check raise. -/
theorem allday_event_reached_raises_witness :
    check_available_slots "2024-06-03"
      (.ok [⟨"allday", "Vakantie", "", none, none, [], "confirmed"⟩]) =
      .error "Failed to check available slots: KeyError: dateTime" :=
  allday_event_reached_raises "2024-06-03"
    ⟨"allday", "Vakantie", "", none, none, [], "confirmed"⟩ [] (Or.inl rfl)

/-! ### Theorems about the Appointment Matcher as executed -/

lemma find_run_none (patient_name : String) (appointment_time : Option String) :
    find_appointment_by_patient_info patient_name appointment_time CALENDAR_ID_fetch
      = none := rfl

/-- C3: the claim fails on the code.  The matcher can never return a sole
match: its fetch names the undefined global `CALENDAR_ID` (line 119), every
call raises `NameError`, and lines 174-176 turn that into `None` — so even
against a calendar holding exactly one event titled "Afspraak - Jansen" the
lookup reports not-found rather than that event.  (In the unreachable scan
of lines 129-162 the claim would fail anyway for an event matching on both
its title and an attendee, which is appended twice.) -/
theorem matcher_lookup_always_none :
    (∀ appointment_time : Option String,
      find_appointment_by_patient_info_run "Jansen" appointment_time = none) ∧
    find_appointment_by_patient_info_run "Jansen" none ≠
      some ⟨⟨"e1", "Afspraak - Jansen", "", some 600, some 630, [], "confirmed"⟩,
            none⟩ :=
  ⟨fun _ => rfl, by decide⟩

/-- C4: the claim fails on the code.  The disambiguation policy is dead
code: the matcher returns `None` for every patient name and time filter
(`NameError` on the undefined `CALENDAR_ID` at line 119), so no input — in
particular not two events both mentioning "Jansen" — ever produces a
single-match or a multiple-matches result, and the cancel tool never sets
its multiple-matches flag. -/
theorem matcher_never_disambiguates :
    (∀ (patient_name : String) (appointment_time : Option String),
      find_appointment_by_patient_info_run patient_name appointment_time = none) ∧
    (∀ args : CancelArgs,
      (cancel_appointment_by_patient_run args).result.multiple_matches = false) := by
  refine ⟨fun _ _ => rfl, fun args => ?_⟩
  rcases Bool.eq_false_or_eq_true
      (py_truthy args.patient_name && py_truthy args.appointment_date) with h | h <;>
    simp [cancel_appointment_by_patient_run, cancel_appointment_by_patient,
      cancel_body, h, find_run_none]

/-! ### Theorems about the mutation tools and the request handler -/

/-- C7: the claim fails on the code.  A cancel request can never resolve to
a matching event: the lookup raises `NameError` on the undefined
`CALENDAR_ID` (line 119) and returns `None`, so the marking write of lines
838-845 is unreachable — whatever the calendar holds, the tool answers
"Appointment not found", issues no write at all (in particular no delete),
and never reports success. -/
theorem cancel_never_reaches_write (args : CancelArgs)
    (h1 : py_truthy args.patient_name = true)
    (h2 : py_truthy args.appointment_date = true) :
    (cancel_appointment_by_patient_run args).write = none ∧
    (cancel_appointment_by_patient_run args).result.success = false ∧
    (cancel_appointment_by_patient_run args).result.error
      = some "Appointment not found" ∧
    (∀ eid, (cancel_appointment_by_patient_run args).write
      ≠ some (CalendarWrite.delete eid)) := by
  have hout : cancel_appointment_by_patient_run args =
      ⟨⟨false, some "Appointment not found",
        "Ik kon geen afspraak vinden voor " ++ args.patient_name.getD "" ++ " op "
          ++ args.appointment_date.getD ""
          ++ ". Kunt u de datum en tijd nog eens controleren?",
        false, none⟩, none⟩ := by
    simp [cancel_appointment_by_patient_run, cancel_appointment_by_patient,
      cancel_body, h1, h2, find_run_none]
  rw [hout]
  exact ⟨rfl, rfl, rfl, by simp⟩

/-- Witness for C7: the concrete cancel request for Jansen is answered
not-found, with no write issued. -/
theorem cancel_never_reaches_write_witness :
    (cancel_appointment_by_patient_run
      ⟨some "Jansen", some "2024-06-01", none, some "Verhinderd"⟩).write = none ∧
    (cancel_appointment_by_patient_run
      ⟨some "Jansen", some "2024-06-01", none, some "Verhinderd"⟩).result.success
      = false ∧
    (cancel_appointment_by_patient_run
      ⟨some "Jansen", some "2024-06-01", none, some "Verhinderd"⟩).result.error
      = some "Appointment not found" ∧
    (∀ eid, (cancel_appointment_by_patient_run
      ⟨some "Jansen", some "2024-06-01", none, some "Verhinderd"⟩).write
      ≠ some (CalendarWrite.delete eid)) :=
  cancel_never_reaches_write
    ⟨some "Jansen", some "2024-06-01", none, some "Verhinderd"⟩
    (by decide) (by decide)

/-- C9: when the lookup fetch raises, the matcher swallows the exception and
returns `none`, so cancel and reschedule answer exactly as they do for an
empty calendar: the structured "Appointment not found" failure, with no
write — an external failure during lookup is indistinguishable from a
genuinely absent appointment at these tools' interface. -/
theorem lookup_failure_reports_not_found (cargs : CancelArgs)
    (rargs : RescheduleArgs) (msg : String)
    (fetchNew : Except String (List Event))
    (hc1 : py_truthy cargs.patient_name = true)
    (hc2 : py_truthy cargs.appointment_date = true)
    (hr1 : py_truthy rargs.patient_name = true)
    (hr2 : py_truthy rargs.current_date = true)
    (hr3 : py_truthy rargs.new_date = true)
    (hr4 : py_truthy rargs.new_time = true) :
    cancel_appointment_by_patient cargs (.error msg)
      = cancel_appointment_by_patient cargs (.ok []) ∧
    (cancel_appointment_by_patient cargs (.error msg)).result.error
      = some "Appointment not found" ∧
    (cancel_appointment_by_patient cargs (.error msg)).result.success = false ∧
    (cancel_appointment_by_patient cargs (.error msg)).write = none ∧
    reschedule_appointment_by_patient rargs (.error msg) fetchNew
      = reschedule_appointment_by_patient rargs (.ok []) fetchNew ∧
    (reschedule_appointment_by_patient rargs (.error msg) fetchNew).result.error
      = some "Appointment not found" ∧
    (reschedule_appointment_by_patient rargs (.error msg) fetchNew).result.success
      = false ∧
    (reschedule_appointment_by_patient rargs (.error msg) fetchNew).write = none := by
  have hfindE : ∀ (n : String) (t : Option String),
      find_appointment_by_patient_info n t (.error msg) = none := fun _ _ => rfl
  have hfindN : ∀ (n : String) (t : Option String),
      find_appointment_by_patient_info n t (.ok []) = none := fun _ _ => rfl
  refine ⟨?_, ?_, ?_, ?_, ?_, ?_, ?_, ?_⟩ <;>
    simp [cancel_appointment_by_patient, cancel_body,
      reschedule_appointment_by_patient, reschedule_body,
      hc1, hc2, hr1, hr2, hr3, hr4, hfindE, hfindN]

/-- Witness for C9: a concrete credentials failure during lookup gives the
same not-found response as an empty calendar. -/
theorem lookup_failure_reports_not_found_witness :
    cancel_appointment_by_patient
        ⟨some "Jansen", some "2024-06-01", none, none⟩
        (.error "No Google credentials available")
      = cancel_appointment_by_patient
        ⟨some "Jansen", some "2024-06-01", none, none⟩ (.ok []) ∧
    (cancel_appointment_by_patient
        ⟨some "Jansen", some "2024-06-01", none, none⟩
        (.error "No Google credentials available")).result.error
      = some "Appointment not found" ∧
    (cancel_appointment_by_patient
        ⟨some "Jansen", some "2024-06-01", none, none⟩
        (.error "No Google credentials available")).result.success = false ∧
    (cancel_appointment_by_patient
        ⟨some "Jansen", some "2024-06-01", none, none⟩
        (.error "No Google credentials available")).write = none ∧
    reschedule_appointment_by_patient
        ⟨some "Jansen", some "2024-06-01", none, some "2024-06-02", some "10:00"⟩
        (.error "No Google credentials available") (.ok [])
      = reschedule_appointment_by_patient
        ⟨some "Jansen", some "2024-06-01", none, some "2024-06-02", some "10:00"⟩
        (.ok []) (.ok []) ∧
    (reschedule_appointment_by_patient
        ⟨some "Jansen", some "2024-06-01", none, some "2024-06-02", some "10:00"⟩
        (.error "No Google credentials available") (.ok [])).result.error
      = some "Appointment not found" ∧
    (reschedule_appointment_by_patient
        ⟨some "Jansen", some "2024-06-01", none, some "2024-06-02", some "10:00"⟩
        (.error "No Google credentials available") (.ok [])).result.success = false ∧
    (reschedule_appointment_by_patient
        ⟨some "Jansen", some "2024-06-01", none, some "2024-06-02", some "10:00"⟩
        (.error "No Google credentials available") (.ok [])).write = none :=
  lookup_failure_reports_not_found
    ⟨some "Jansen", some "2024-06-01", none, none⟩
    ⟨some "Jansen", some "2024-06-01", none, some "2024-06-02", some "10:00"⟩
    "No Google credentials available" (.ok [])
    (by decide) (by decide) (by decide) (by decide) (by decide) (by decide)

/-- C1: the claim fails on the code.  Even when the Slot Finder reports the
requested new time free, the reschedule cannot succeed: the lookup of the
current appointment raises `NameError` on the undefined `CALENDAR_ID`
(line 119) and returns `None`, so the tool answers "Appointment not found"
and issues no write.  (Were the lookup repaired, line 915 would still raise
`TypeError`: `json.loads` there receives the Python list stored under the
`"available_slots"` key, not a JSON string.) -/
theorem reschedule_free_slot_lookup_error :
    (∃ r, check_available_slots "2024-06-02" (.ok []) = .ok r ∧
      "10:00" ∈ r.available_slots.map Slot.time) ∧
    reschedule_appointment_by_patient_run
        ⟨some "Jansen", some "2024-06-01", none, some "2024-06-02", some "10:00"⟩
        (.ok []) =
      ⟨⟨false, some "Appointment not found",
        "Ik kon geen afspraak vinden voor Jansen op 2024-06-01. Kunt u de huidige datum en tijd nog eens controleren?",
        false, none⟩, none⟩ := by
  have hcheck : check_available_slots "2024-06-02" (.ok []) =
      .ok ⟨"2024-06-02", List.map mk_slot [540, 570, 600, 630, 660, 690, 720, 750, 780,
        810, 840, 870, 900, 930, 960, 990], "09:00 - 17:00"⟩ := by
    rw [check_ok, scan_slots_no_events, gen_slots_concrete]
  exact ⟨⟨_, hcheck, by decide⟩, by decide⟩

/-- C2: the claim fails on the code.  When the requested new time is
occupied, the "Time slot not available" response with suggested free times
(lines 919-927) is unreachable twice over: the lookup already fails with
`NameError` on the undefined `CALENDAR_ID` (line 119), so the tool answers
"Appointment not found" with no write; and even past the lookup, line 915's
`json.loads` on the list value would raise `TypeError` first. -/
theorem reschedule_busy_slot_lookup_error :
    (∃ r, check_available_slots "2024-06-02"
        (.ok [⟨"ev2", "Afspraak - Pietersen", "", some 600, some 630, [],
              "confirmed"⟩]) = .ok r ∧
      "10:00" ∉ r.available_slots.map Slot.time) ∧
    reschedule_appointment_by_patient_run
        ⟨some "Jansen", some "2024-06-01", none, some "2024-06-02", some "10:00"⟩
        (.ok [⟨"ev2", "Afspraak - Pietersen", "", some 600, some 630, [],
              "confirmed"⟩]) =
      ⟨⟨false, some "Appointment not found",
        "Ik kon geen afspraak vinden voor Jansen op 2024-06-01. Kunt u de huidige datum en tijd nog eens controleren?",
        false, none⟩, none⟩ ∧
    (reschedule_appointment_by_patient_run
        ⟨some "Jansen", some "2024-06-01", none, some "2024-06-02", some "10:00"⟩
        (.ok [⟨"ev2", "Afspraak - Pietersen", "", some 600, some 630, [],
              "confirmed"⟩])).result.error ≠ some "Time slot not available" ∧
    (reschedule_appointment_by_patient_run
        ⟨some "Jansen", some "2024-06-01", none, some "2024-06-02", some "10:00"⟩
        (.ok [⟨"ev2", "Afspraak - Pietersen", "", some 600, some 630, [],
              "confirmed"⟩])).result.suggested_times = none := by
  have hcheck : check_available_slots "2024-06-02"
      (.ok [⟨"ev2", "Afspraak - Pietersen", "", some 600, some 630, [],
            "confirmed"⟩]) =
      .ok ⟨"2024-06-02", List.map mk_slot [540, 570, 630, 660, 690, 720, 750, 780,
        810, 840, 870, 900, 930, 960, 990], "09:00 - 17:00"⟩ := by
    rw [check_ok, gen_slots_concrete]
    rfl
  exact ⟨⟨_, hcheck, by decide⟩, by decide, by decide, by decide⟩

/-- C8: in the `tools/call` branch every exception raised by the invoked
tool — unknown tool, missing credentials, external API failure — is caught
at the dispatch boundary and becomes a JSON-RPC error object with code
-32603 and the exception text; the handler always returns a response for
such requests. -/
theorem tools_call_errors_contained (req : McpRequest)
    (runTool : String → Except String String)
    (h : req.method = "tools/call") :
    (∃ b, handle_mcp_request req runTool = .ok ⟨req.id, b⟩) ∧
    (∀ e, dispatch_tool req.toolName runTool = .error e →
      handle_mcp_request req runTool = .ok ⟨req.id, .callError (-32603) e⟩) ∧
    (∀ e, req.toolName ∈ TOOL_NAMES → runTool req.toolName = .error e →
      handle_mcp_request req runTool = .ok ⟨req.id, .callError (-32603) e⟩) := by
  refine ⟨?_, ?_, ?_⟩
  · cases hdisp : dispatch_tool req.toolName runTool with
    | ok r => exact ⟨.callResult r, by simp [handle_mcp_request, h, hdisp]⟩
    | error e => exact ⟨.callError (-32603) e, by simp [handle_mcp_request, h, hdisp]⟩
  · intro e he
    simp [handle_mcp_request, h, he]
  · intro e hmem hrun
    have hdisp : dispatch_tool req.toolName runTool = .error e := by
      simp [dispatch_tool, hmem, hrun]
    simp [handle_mcp_request, h, hdisp]

/-- Witness for C8: a concrete `tools/call` request whose tool raises an
external API failure is answered with the -32603 error object. -/
theorem tools_call_errors_contained_witness :
    ("cancel_appointment" ∈ TOOL_NAMES) ∧
    handle_mcp_request ⟨"tools/call", some 7, "cancel_appointment"⟩
        (fun _ => .error "HttpError 503") =
      .ok ⟨some 7, .callError (-32603) "HttpError 503"⟩ :=
  ⟨by decide,
    (tools_call_errors_contained ⟨"tools/call", some 7, "cancel_appointment"⟩
      (fun _ => .error "HttpError 503") rfl).2.2 "HttpError 503" (by decide) rfl⟩

end Dental
